import Mathlib

/-!
Verification of the fire-spread prediction engine of RapidResponseAI
(backend/agents/prediction.py and backend/agents/prediction_helpers.py).

The Python code is shallowly embedded: Python numbers become rationals,
Python dict-shaped weather inputs become the inductive type PyVal,
GeoJSON polygons become lists of rational coordinate pairs (the exterior
ring), and fallible code returns Except String.  External geometry
backends (shapely buffer, pyproj geodesic area) are abstracted as
function parameters, exactly at the call sites where the source calls
into those libraries; everything the source computes itself is computed
here.
-/

instance {ε α : Type} [DecidableEq ε] [DecidableEq α] : DecidableEq (Except ε α) := fun a b =>
  match a, b with
  | .ok x, .ok y => decidable_of_iff (x = y) (by simp)
  | .error x, .error y => decidable_of_iff (x = y) (by simp)
  | .ok _, .error _ => isFalse (by simp)
  | .error _, .ok _ => isFalse (by simp)

/-- Round to the nearest integer, ties to even — the semantics of Python 3
builtin round on exact values. -/
def roundHalfEven (q : ℚ) : ℤ :=
  let f := ⌊q⌋
  if q - f < 1/2 then f
  else if q - f > 1/2 then f + 1
  else if f % 2 = 0 then f else f + 1

/-- Python round(x, nd) for nd decimal places, on exact rationals. -/
def pyRoundTo (nd : ℕ) (q : ℚ) : ℚ :=
  (roundHalfEven (q * 10 ^ nd) : ℚ) / 10 ^ nd

/-- Python builtin max on two numbers (kernel-computable form). -/
def pymax (a b : ℚ) : ℚ := if a ≤ b then b else a

theorem pymax_eq_max (a b : ℚ) : pymax a b = max a b := by
  unfold pymax
  rcases le_total a b with h | h
  · simp [h, max_eq_right h]
  · rcases eq_or_lt_of_le h with rfl | hlt
    · simp
    · rw [if_neg (not_le.mpr hlt), max_eq_left h]

theorem le_pymax_left (a b : ℚ) : a ≤ pymax a b := by
  rw [pymax_eq_max]; exact le_max_left a b

theorem le_pymax_right (a b : ℚ) : b ≤ pymax a b := by
  rw [pymax_eq_max]; exact le_max_right a b

/-- A Python value as it can appear in the weather input of
_calculate_fire_spread_rate: None, a bool, a number (int or float,
modelled exactly as a rational), a string, a dict with string keys, or a
list. -/
inductive PyVal where
  | pynone
  | pybool (b : Bool)
  | num (q : ℚ)
  | str (s : String)
  | pdict (entries : List (String × PyVal))
  | plist (xs : List PyVal)

/-- Python isinstance(v, (int, float)) together with numeric coercion:
bool is a subclass of int in Python, so True and False count as 1 and 0. -/
def PyVal.asNum? : PyVal → Option ℚ
  | .pybool b => some (if b then 1 else 0)
  | .num q => some q
  | _ => none

/-- Python `v.get(k, default)` restricted to dict entries: lookup with a
default for an absent key. -/
def pyDictGet (entries : List (String × PyVal)) (k : String) (dflt : PyVal) : PyVal :=
  (entries.lookup k).getD dflt

/-- Python `isinstance(v, dict)`. -/
def PyVal.isDict : PyVal → Bool
  | .pdict _ => true
  | _ => false

-- ===========================================================================
-- Constants from prediction_helpers.py (module-level)
-- ===========================================================================

def BASE_SPREAD_RATE_KMH : ℚ := 2
def WIND_SPEED_DENOMINATOR : ℚ := 50
def TEMP_REFERENCE : ℚ := 20
def TEMP_DENOMINATOR : ℚ := 40
def HUMIDITY_BASE : ℚ := 3/2
def HUMIDITY_DENOMINATOR : ℚ := 100
def MIN_WIND_FACTOR : ℚ := 1/2
def MIN_TEMP_FACTOR : ℚ := 1/2
def MIN_HUMIDITY_FACTOR : ℚ := 1/10
def DEFAULT_WIND_SPEED_MS : ℚ := 10
def DEFAULT_WIND_DIRECTION : ℚ := 0
def DEFAULT_TEMPERATURE : ℚ := 20
def DEFAULT_HUMIDITY : ℚ := 50
def BASE_CONFIDENCE : ℚ := 3/4
def CONFIDENCE_DECAY_PER_HOUR : ℚ := 1/20
def ARRIVAL_TIME_HIGH_CONFIDENCE_THRESHOLD : ℚ := 6
def KM_PER_DEGREE : ℚ := 1111/10
def M_TO_KM : ℚ := 1000000
def MS_TO_KMH : ℚ := 36/10

-- ===========================================================================
-- _calculate_fire_spread_rate (prediction_helpers.py lines 66-155)
-- ===========================================================================

/-- Validation of the extracted wind speed (m/s): non-numeric or negative
values are replaced by the default 10. -/
def validWindSpeedMs (v : PyVal) : ℚ :=
  match v.asNum? with
  | some q => if q < 0 then DEFAULT_WIND_SPEED_MS else q
  | none => DEFAULT_WIND_SPEED_MS

/-- Validation of the extracted temperature (Celsius): non-numeric values
are replaced by the default 20 (no range check in the source). -/
def validTemperature (v : PyVal) : ℚ :=
  (v.asNum?).getD DEFAULT_TEMPERATURE

/-- Validation of the extracted humidity (percent): non-numeric or
out-of-[0,100] values are replaced by the default 50. -/
def validHumidity (v : PyVal) : ℚ :=
  match v.asNum? with
  | some q => if q < 0 ∨ 100 < q then DEFAULT_HUMIDITY else q
  | none => DEFAULT_HUMIDITY

/-- Validation of the extracted wind direction (degrees): non-numeric or
out-of-[0,360) values are replaced by the default 0. -/
def validWindDirection (v : PyVal) : ℚ :=
  match v.asNum? with
  | some q => if q < 0 ∨ 360 ≤ q then DEFAULT_WIND_DIRECTION else q
  | none => DEFAULT_WIND_DIRECTION

/-- The factors dict returned by _calculate_fire_spread_rate. -/
structure SpreadFactors where
  wind_speed_kmh : ℚ
  wind_direction_deg : ℚ
  temperature_c : ℚ
  humidity_percent : ℚ
deriving DecidableEq

/-- The arithmetic core of _calculate_fire_spread_rate (source lines
125-141): the three clamped factors and the final product. -/
def spreadRateFormula (wind_speed_ms temperature humidity : ℚ) : ℚ :=
  BASE_SPREAD_RATE_KMH
    * pymax MIN_WIND_FACTOR (1 + wind_speed_ms * MS_TO_KMH / WIND_SPEED_DENOMINATOR)
    * pymax MIN_TEMP_FACTOR (1 + (temperature - TEMP_REFERENCE) / TEMP_DENOMINATOR)
    * pymax MIN_HUMIDITY_FACTOR (HUMIDITY_BASE - humidity / HUMIDITY_DENOMINATOR)

/-- Shallow embedding of _calculate_fire_spread_rate.  The whole body of
the source function runs inside `try`, and `except Exception` re-raises
any failure as ValueError.  The only failing operation in the body is
`.get` on a non-dict (Python AttributeError): `weather.get` fails when
weather itself is not a dict, and `wind_data.get` / `main_data.get` fail
when the wind or main entry is present but not a dict.  Those paths land
in the error branches; everything else is the arithmetic of the source. -/
def _calculate_fire_spread_rate (weather : PyVal) : Except String (ℚ × SpreadFactors) :=
  match weather with
  | .pdict es =>
    match pyDictGet es "wind" (.pdict []), pyDictGet es "main" (.pdict []) with
    | .pdict wind_data, .pdict main_data =>
      let wind_speed_ms := validWindSpeedMs (pyDictGet wind_data "speed" (.num DEFAULT_WIND_SPEED_MS))
      let temperature := validTemperature (pyDictGet main_data "temp" (.num DEFAULT_TEMPERATURE))
      let humidity := validHumidity (pyDictGet main_data "humidity" (.num DEFAULT_HUMIDITY))
      let wind_direction := validWindDirection (pyDictGet wind_data "deg" (.num DEFAULT_WIND_DIRECTION))
      .ok (spreadRateFormula wind_speed_ms temperature humidity,
        { wind_speed_kmh := pyRoundTo 2 (wind_speed_ms * MS_TO_KMH)
          wind_direction_deg := wind_direction
          temperature_c := temperature
          humidity_percent := humidity })
    | _, _ => .error "ValueError: Failed to calculate fire spread rate"
  | _ => .error "ValueError: Failed to calculate fire spread rate"

/-- The precondition under which the body of _calculate_fire_spread_rate
performs no failing operation: the weather value is a dict and its wind
and main entries, when present, are dicts. -/
def weatherWellFormed : PyVal → Bool
  | .pdict es =>
    (pyDictGet es "wind" (.pdict [])).isDict && (pyDictGet es "main" (.pdict [])).isDict
  | _ => false

theorem validWindSpeedMs_nonneg (v : PyVal) : 0 ≤ validWindSpeedMs v := by
  unfold validWindSpeedMs
  cases v.asNum? with
  | none => norm_num [DEFAULT_WIND_SPEED_MS]
  | some q =>
    by_cases hq : q < 0
    · simp [hq, DEFAULT_WIND_SPEED_MS]
    · simp [hq]; linarith [not_lt.mp hq]

theorem validHumidity_bounds (v : PyVal) : 0 ≤ validHumidity v ∧ validHumidity v ≤ 100 := by
  unfold validHumidity
  cases v.asNum? with
  | none => norm_num [DEFAULT_HUMIDITY]
  | some q =>
    dsimp only
    split
    · norm_num [DEFAULT_HUMIDITY]
    · next hc =>
        push_neg at hc
        exact ⟨hc.1, hc.2⟩

theorem two_mul_factors_ge (A B C : ℚ) (hA : 1 ≤ A) (hB : 1/2 ≤ B) (hC : 1/2 ≤ C) :
    1/2 ≤ 2 * A * B * C := by
  have h1 : (1 : ℚ) * (1/2) ≤ A * B := mul_le_mul hA hB (by norm_num) (by linarith)
  have h2 : ((1 : ℚ) * (1/2)) * (1/2) ≤ (A * B) * C :=
    mul_le_mul h1 hC (by norm_num) (by linarith [h1])
  calc (1 : ℚ)/2 = 2 * (((1 : ℚ) * (1/2)) * (1/2)) := by norm_num
    _ ≤ 2 * ((A * B) * C) := by linarith [h2]
    _ = 2 * A * B * C := by ring

theorem spreadRateFormula_half_le (ws t hum : ℚ) (hws : 0 ≤ ws) (h0 : 0 ≤ hum)
    (h1 : hum ≤ 100) : 1/2 ≤ spreadRateFormula ws t hum := by
  unfold spreadRateFormula BASE_SPREAD_RATE_KMH
  have hwf : (1 : ℚ) ≤ pymax MIN_WIND_FACTOR (1 + ws * MS_TO_KMH / WIND_SPEED_DENOMINATOR) := by
    refine le_trans ?_ (le_pymax_right _ _)
    unfold MS_TO_KMH WIND_SPEED_DENOMINATOR
    nlinarith
  have htf : (1/2 : ℚ) ≤ pymax MIN_TEMP_FACTOR (1 + (t - TEMP_REFERENCE) / TEMP_DENOMINATOR) := by
    refine le_trans ?_ (le_pymax_left _ _)
    norm_num [MIN_TEMP_FACTOR]
  have hhf : (1/2 : ℚ) ≤ pymax MIN_HUMIDITY_FACTOR (HUMIDITY_BASE - hum / HUMIDITY_DENOMINATOR) := by
    refine le_trans ?_ (le_pymax_right _ _)
    unfold HUMIDITY_BASE HUMIDITY_DENOMINATOR
    nlinarith
  exact two_mul_factors_ge _ _ _ hwf htf hhf

/-- Evaluation of _calculate_fire_spread_rate at the empty weather dict:
all defaults apply and the rate is 2.0 x 1.72 x 1.0 x 1.0 = 3.44 = 86/25. -/
theorem spread_rate_empty_eval :
    _calculate_fire_spread_rate (.pdict []) = .ok (86/25, ⟨36, 0, 20, 50⟩) := by
  simp [_calculate_fire_spread_rate, pyDictGet, List.lookup, validWindSpeedMs,
    validTemperature, validHumidity, validWindDirection, PyVal.asNum?, pymax,
    pyRoundTo, roundHalfEven, spreadRateFormula, BASE_SPREAD_RATE_KMH,
    WIND_SPEED_DENOMINATOR, TEMP_REFERENCE, TEMP_DENOMINATOR, HUMIDITY_BASE,
    HUMIDITY_DENOMINATOR, MIN_WIND_FACTOR, MIN_TEMP_FACTOR, MIN_HUMIDITY_FACTOR,
    DEFAULT_WIND_SPEED_MS, DEFAULT_WIND_DIRECTION, DEFAULT_TEMPERATURE,
    DEFAULT_HUMIDITY, MS_TO_KMH]
  norm_num [Int.floor_eq_iff]

/-- C4: for the empty weather dict, _calculate_fire_spread_rate returns
spread_rate_kmh = 3.44 (= 86/25): the documented defaults wind 10 m/s
(36 km/h, wind_factor 1.72), temperature 20 (temp_factor 1.0) and
humidity 50 (humidity_factor 1.0) give 2.0 x 1.72 x 1.0 x 1.0, and the
factors record carries those defaults. -/
theorem c4_empty_weather_spread_rate :
    _calculate_fire_spread_rate (.pdict []) = .ok (86/25, ⟨36, 0, 20, 50⟩) :=
  spread_rate_empty_eval

/-- C3 counterexample: the claim says _calculate_fire_spread_rate never
raises for any weather input, including a non-dict wind sub-field; but
for weather = {"wind": 5} the source evaluates 5 .get("speed", ...),
Python raises AttributeError, and the except-clause re-raises ValueError. -/
theorem c3_counterexample_nondict_wind_raises :
    _calculate_fire_spread_rate (.pdict [("wind", .num 5)]) =
      .error "ValueError: Failed to calculate fire spread rate" := by
  simp [_calculate_fire_spread_rate, pyDictGet, List.lookup, PyVal.asNum?]

/-- C3 amended: _calculate_fire_spread_rate never raises exactly when the
weather value is a dict whose wind and main entries, when present, are
dicts (then every missing, non-numeric or out-of-range leaf field is
replaced by its default); when weather itself or a present wind/main
entry is not a dict, it raises ValueError. -/
theorem c3_amended_raise_iff_malformed (w : PyVal) :
    (weatherWellFormed w = true → ∃ out, _calculate_fire_spread_rate w = .ok out) ∧
    (weatherWellFormed w = false → _calculate_fire_spread_rate w =
      .error "ValueError: Failed to calculate fire spread rate") := by
  cases w with
  | pdict es =>
    cases hw : pyDictGet es "wind" (.pdict []) <;>
      cases hm : pyDictGet es "main" (.pdict []) <;>
        constructor <;>
          intro h <;>
            simp_all [weatherWellFormed, PyVal.isDict, _calculate_fire_spread_rate]
  | pynone =>
    exact ⟨fun h => by simp [weatherWellFormed] at h, fun _ => rfl⟩
  | pybool b =>
    exact ⟨fun h => by simp [weatherWellFormed] at h, fun _ => rfl⟩
  | num q =>
    exact ⟨fun h => by simp [weatherWellFormed] at h, fun _ => rfl⟩
  | str s =>
    exact ⟨fun h => by simp [weatherWellFormed] at h, fun _ => rfl⟩
  | plist xs =>
    exact ⟨fun h => by simp [weatherWellFormed] at h, fun _ => rfl⟩

/-- C3 witness: at the well-formed input {} the amended theorem yields a
non-raising run, and at the malformed input "hot" it yields the
ValueError. -/
theorem c3_amended_witness :
    (∃ out, _calculate_fire_spread_rate (.pdict []) = .ok out) ∧
    _calculate_fire_spread_rate (.str "hot") =
      .error "ValueError: Failed to calculate fire spread rate" :=
  ⟨(c3_amended_raise_iff_malformed (.pdict [])).1 rfl,
   (c3_amended_raise_iff_malformed (.str "hot")).2 rfl⟩

/-- C5: whenever _calculate_fire_spread_rate returns (does not raise),
the returned spread rate is at least 0.1 km/h; it is never zero or
negative.  (The proof in fact gives the sharper bound 0.5.) -/
theorem c5_spread_rate_at_least_tenth (w : PyVal) (r : ℚ) (f : SpreadFactors)
    (h : _calculate_fire_spread_rate w = .ok (r, f)) : 1/10 ≤ r := by
  cases w with
  | pdict es =>
    cases hw : pyDictGet es "wind" (.pdict []) <;>
      cases hm : pyDictGet es "main" (.pdict []) <;>
        simp_all [_calculate_fire_spread_rate]
    obtain ⟨hr, -⟩ := h
    subst hr
    exact le_trans (by norm_num) (spreadRateFormula_half_le _ _ _
      (validWindSpeedMs_nonneg _) (validHumidity_bounds _).1 (validHumidity_bounds _).2)
  | pynone => simp [_calculate_fire_spread_rate] at h
  | pybool b => simp [_calculate_fire_spread_rate] at h
  | num q => simp [_calculate_fire_spread_rate] at h
  | str s => simp [_calculate_fire_spread_rate] at h
  | plist xs => simp [_calculate_fire_spread_rate] at h

/-- C5 witness: the theorem applied at the concrete empty weather dict,
whose run returns spread rate 86/25. -/
theorem c5_witness : (1 : ℚ)/10 ≤ 86/25 :=
  c5_spread_rate_at_least_tenth (.pdict []) (86/25) ⟨36, 0, 20, 50⟩
    spread_rate_empty_eval

-- ===========================================================================
-- PredictionAgent.analyze dispatch (prediction.py lines 43-104)
-- ===========================================================================

/-- The observable outcome of PredictionAgent.analyze for a given disaster
type (with scenario_config = None, the default). -/
inductive AnalyzeOutcome where
  | wildfireAnalysis
  | raisesAttributeError (missingMethod : String)
  | raisesValueError (msg : String)
deriving DecidableEq

/-- Shallow embedding of the dispatch logic of PredictionAgent.analyze
(scenario_config = None).  disaster_type == "wildfire" runs
_model_fire_spread.  disaster_type == "flood" executes
self._model_flood_spread(disaster, data); that method is not defined on
PredictionAgent, on BaseAgent, or anywhere else in the repository, so
Python raises AttributeError, which the final except-Exception clause
re-raises unchanged.  Every other type reaches the else branch, which
raises ValueError("Unknown disaster type: " + disaster_type); the
repository's own test asserts this ValueError for "earthquake". -/
def analyzeDispatch (disaster_type : String) : AnalyzeOutcome :=
  if disaster_type = "wildfire" then .wildfireAnalysis
  else if disaster_type = "flood" then .raisesAttributeError "_model_flood_spread"
  else .raisesValueError ("Unknown disaster type: " ++ disaster_type)

/-- C1 counterexample: the claim says every disaster type other than
wildfire gets a structured not-implemented payload and never raises; but
for "earthquake" analyze raises ValueError (the behaviour the repo's own
test test_prediction_agent_unknown_disaster asserts). -/
theorem c1_counterexample_earthquake_raises :
    analyzeDispatch "earthquake" =
      .raisesValueError "Unknown disaster type: earthquake" := by
  rfl

/-- C1 amended: for every disaster type other than "wildfire", analyze
raises rather than returning a placeholder: ValueError("Unknown disaster
type: ...") for types other than "flood", and AttributeError for "flood"
itself, whose placeholder handler _model_flood_spread is missing from the
code (the repo's test expects {status: "not_implemented"} there, so the
flood branch is a defect in the code, not a stable contract). -/
theorem c1_amended_non_wildfire_raises (t : String) (hw : t ≠ "wildfire") :
    analyzeDispatch t =
      if t = "flood" then AnalyzeOutcome.raisesAttributeError "_model_flood_spread"
      else AnalyzeOutcome.raisesValueError ("Unknown disaster type: " ++ t) := by
  unfold analyzeDispatch
  rw [if_neg hw]

/-- C1 witness: the amended theorem applied at the concrete types "flood"
and "storm". -/
theorem c1_amended_witness :
    analyzeDispatch "flood" = AnalyzeOutcome.raisesAttributeError "_model_flood_spread" ∧
    analyzeDispatch "storm" = AnalyzeOutcome.raisesValueError "Unknown disaster type: storm" := by
  constructor
  · have h := c1_amended_non_wildfire_raises "flood" (by decide)
    simpa using h
  · have h := c1_amended_non_wildfire_raises "storm" (by decide)
    simpa using h

-- ===========================================================================
-- Polygon geometry (prediction_helpers.py lines 162-254)
-- ===========================================================================

/-- A GeoJSON Polygon's exterior ring: a closed list of (lon, lat)
coordinate pairs.  The fire perimeters this engine handles are
single-ring polygons. -/
def GeoPoly : Type := List (ℚ × ℚ)

/-- The polygon argument as the Python functions receive it: None, the
empty dict {} (both falsy, so `if not polygon` catches them), or a
Polygon-typed GeoJSON dict carrying an exterior ring. -/
inductive PolyInput where
  | pynone
  | emptyDict
  | poly (ring : GeoPoly)

/-- Python truthiness test `not polygon` on the polygon argument. -/
def PolyInput.isFalsy : PolyInput → Bool
  | .pynone => true
  | .emptyDict => true
  | .poly _ => false

/-- Twice the signed shoelace area of a closed coordinate ring:
the sum of x_i * y_(i+1) - x_(i+1) * y_i over consecutive pairs. -/
def shoelace2 : List (ℚ × ℚ) → ℚ
  | [] => 0
  | [_] => 0
  | p :: q :: rest => (p.1 * q.2 - q.1 * p.2) + shoelace2 (q :: rest)

/-- Shapely's planar Polygon.area for a single-ring polygon: GEOS returns
the absolute value of the signed shoelace area, so it is unsigned
regardless of ring winding. -/
def shapelyPlanarArea (ring : GeoPoly) : ℚ := |shoelace2 ring| / 2

/-- Shallow embedding of _calculate_polygon_area.  The pyproj geodesic
backend is abstracted: geodAvailable says whether `Geod is not None`
(the import succeeded), and geodAreaM2 stands for
geod.geometry_area_perimeter(geom)[0], the signed geodesic area in m²
that the source wraps in abs() and divides by M_TO_KM.  When the backend
is unavailable the source computes shapely's planar area (degrees²)
times KM_PER_DEGREE ** 2 itself, with no abs of its own. -/
def _calculate_polygon_area (geodAvailable : Bool) (geodAreaM2 : GeoPoly → ℚ)
    (polygon : PolyInput) : ℚ :=
  match polygon with
  | .pynone => 0
  | .emptyDict => 0
  | .poly ring =>
    if geodAvailable then |geodAreaM2 ring| / M_TO_KM
    else shapelyPlanarArea ring * KM_PER_DEGREE ^ 2

/-- Shallow embedding of _expand_polygon.  The shapely buffer call is
abstracted as buf, taking the ring and the buffer radius in degrees;
a buf result of none models a GEOSException inside the try-block, which
the source catches and turns into a None return.  The ValueError for a
negative distance is raised outside the try-block and propagates. -/
def _expand_polygon (buf : GeoPoly → ℚ → Option GeoPoly) (polygon : PolyInput)
    (distance_km : ℚ) : Except String (Option GeoPoly) :=
  match polygon with
  | .pynone => .ok none
  | .emptyDict => .ok none
  | .poly ring =>
    if distance_km < 0 then .error "ValueError: Buffer distance cannot be negative"
    else if distance_km = 0 then .ok (some ring)
    else .ok (buf ring (distance_km / KM_PER_DEGREE))

/-- The unit square ring used as a concrete test polygon. -/
def unitSquareRing : GeoPoly :=
  [((0 : ℚ), (0 : ℚ)), (1, 0), (1, 1), (0, 1), (0, 0)]

/-- C2 counterexample: with the geodesy library unavailable, the area of
the unit square (planar area 1 degree²) is 1 x 111.1² = 12343.21 km²,
not 1 x 12321 km²: the source multiplies by KM_PER_DEGREE ** 2 = 111.1²,
while the claim (and the source's own comment) says 12321 = 111². -/
theorem c2_counterexample_fallback_multiplier :
    _calculate_polygon_area false (fun _ => 0) (.poly unitSquareRing) = 1234321/100 ∧
    shapelyPlanarArea unitSquareRing = 1 ∧
    (1234321/100 : ℚ) ≠ 1 * 12321 := by
  refine ⟨?_, ?_, by norm_num⟩
  · simp [_calculate_polygon_area, shapelyPlanarArea, shoelace2, unitSquareRing,
      KM_PER_DEGREE]
    norm_num
  · simp [shapelyPlanarArea, shoelace2, unitSquareRing]
    norm_num

/-- C2 amended: when the geodesy library is unavailable the polygon area
function returns the planar area in squared degrees multiplied by
KM_PER_DEGREE² = 111.1² = 12343.21; and in both branches the result is
non-negative regardless of ring winding (the geodesic branch applies
abs() explicitly, the fallback branch inherits shapely's unsigned area). -/
theorem c2_amended_fallback_area (geodAreaM2 : GeoPoly → ℚ) (ring : GeoPoly)
    (avail : Bool) (inp : PolyInput) :
    _calculate_polygon_area false geodAreaM2 (.poly ring) =
      shapelyPlanarArea ring * (1111/10) ^ 2 ∧
    0 ≤ _calculate_polygon_area avail geodAreaM2 inp := by
  constructor
  · simp [_calculate_polygon_area, KM_PER_DEGREE]
  · cases inp with
    | pynone => simp [_calculate_polygon_area]
    | emptyDict => simp [_calculate_polygon_area]
    | poly r =>
      cases avail with
      | true =>
        have hev : _calculate_polygon_area true geodAreaM2 (.poly r) =
            |geodAreaM2 r| / M_TO_KM := rfl
        rw [hev]
        unfold M_TO_KM
        positivity
      | false =>
        have hev : _calculate_polygon_area false geodAreaM2 (.poly r) =
            shapelyPlanarArea r * KM_PER_DEGREE ^ 2 := rfl
        rw [hev]
        unfold shapelyPlanarArea KM_PER_DEGREE
        positivity

/-- C8: for a present polygon, a negative buffer distance raises
ValueError (not clamped, no value returned), and a zero distance returns
the input polygon unchanged. -/
theorem c8_expand_negative_raises_zero_identity (buf : GeoPoly → ℚ → Option GeoPoly)
    (ring : GeoPoly) (d : ℚ) (hd : d < 0) :
    _expand_polygon buf (.poly ring) d =
      .error "ValueError: Buffer distance cannot be negative" ∧
    _expand_polygon buf (.poly ring) 0 = .ok (some ring) := by
  have hev : ∀ e : ℚ, _expand_polygon buf (.poly ring) e =
      if e < 0 then .error "ValueError: Buffer distance cannot be negative"
      else if e = 0 then .ok (some ring)
      else .ok (buf ring (e / KM_PER_DEGREE)) := fun e => rfl
  constructor
  · rw [hev, if_pos hd]
  · rw [hev]
    norm_num

/-- C8 witness: the theorem applied to the unit square with d = -1 and
the identity buffer. -/
theorem c8_witness :
    _expand_polygon (fun r _ => some r) (.poly unitSquareRing) (-1) =
      .error "ValueError: Buffer distance cannot be negative" ∧
    _expand_polygon (fun r _ => some r) (.poly unitSquareRing) 0 =
      .ok (some unitSquareRing) :=
  c8_expand_negative_raises_zero_identity (fun r _ => some r) unitSquareRing (-1)
    (by norm_num)

/-- C9: for a missing polygon (None or the falsy empty dict) the
expansion returns None without raising, for every distance including
negative ones: the falsy check precedes the negative-distance check, so
the ValueError of C8 is unreachable when the polygon is absent. -/
theorem c9_expand_missing_polygon_none (buf : GeoPoly → ℚ → Option GeoPoly) (d : ℚ) :
    _expand_polygon buf .pynone d = .ok none ∧
    _expand_polygon buf .emptyDict d = .ok none :=
  ⟨rfl, rfl⟩

-- ===========================================================================
-- _generate_timeline_predictions (prediction_helpers.py lines 261-314)
-- ===========================================================================

theorem roundHalfEven_intCast (a : ℤ) : roundHalfEven (a : ℚ) = a := by
  unfold roundHalfEven
  simp only [Int.floor_intCast]
  norm_num

theorem pyRoundTo_exact (nd : ℕ) (a : ℤ) :
    pyRoundTo nd ((a : ℚ) / 10 ^ nd) = (a : ℚ) / 10 ^ nd := by
  unfold pyRoundTo
  have h : ((a : ℚ) / 10 ^ nd) * 10 ^ nd = (a : ℚ) := by
    field_simp
  rw [h, roundHalfEven_intCast]

/-- One hour_N value of the timeline prediction dict. -/
structure TimelineEntry where
  boundary : Option GeoPoly
  area_km2 : ℚ
  confidence : ℚ

/-- The result of _expand_polygon as _calculate_polygon_area receives it:
a Python None is falsy, a returned GeoJSON dict is a Polygon. -/
def optToPolyInput : Option GeoPoly → PolyInput
  | none => .pynone
  | some r => .poly r

/-- One iteration of the loop in _generate_timeline_predictions: expand
the boundary by spread_rate * hours, measure its area, and attach the
time-decayed confidence max(0, 0.75 - hours * 0.05) rounded to 2 places. -/
def timelineEntryFor (buf : GeoPoly → ℚ → Option GeoPoly) (gA : Bool)
    (gF : GeoPoly → ℚ) (boundary : PolyInput) (rate hours : ℚ) :
    Except String TimelineEntry :=
  match _expand_polygon buf boundary (rate * hours) with
  | .error e => .error e
  | .ok eb => .ok {
      boundary := eb
      area_km2 := _calculate_polygon_area gA gF (optToPolyInput eb)
      confidence := pyRoundTo 2 (pymax 0 (BASE_CONFIDENCE - hours * CONFIDENCE_DECAY_PER_HOUR)) }

/-- The guard at the top of _generate_timeline_predictions: a negative
spread rate is replaced by 0 (logged, not raised). -/
def clampRate (spread_rate : ℚ) : ℚ :=
  if spread_rate < 0 then 0 else spread_rate

/-- Shallow embedding of _generate_timeline_predictions: a negative
spread rate is clamped to 0 (logged, not raised), then the loop runs over
PREDICTION_HOURS = [1, 3, 6] building the hour_1 / hour_3 / hour_6
entries in order; an exception in an earlier iteration propagates before
later iterations run. -/
def _generate_timeline_predictions (buf : GeoPoly → ℚ → Option GeoPoly) (gA : Bool)
    (gF : GeoPoly → ℚ) (boundary : PolyInput) (spread_rate : ℚ) :
    Except String (List (String × TimelineEntry)) :=
  match timelineEntryFor buf gA gF boundary (clampRate spread_rate) 1,
        timelineEntryFor buf gA gF boundary (clampRate spread_rate) 3,
        timelineEntryFor buf gA gF boundary (clampRate spread_rate) 6 with
  | .ok e1, .ok e3, .ok e6 => .ok [("hour_1", e1), ("hour_3", e3), ("hour_6", e6)]
  | .error e, _, _ => .error e
  | _, .error e, _ => .error e
  | _, _, .error e => .error e

theorem expand_nonneg_ok (buf : GeoPoly → ℚ → Option GeoPoly) (b : PolyInput)
    (d : ℚ) (hd : 0 ≤ d) :
    ∃ eb, _expand_polygon buf b d = .ok eb ∧ (b.isFalsy = true → eb = none) := by
  cases b with
  | pynone => exact ⟨none, rfl, fun _ => rfl⟩
  | emptyDict => exact ⟨none, rfl, fun _ => rfl⟩
  | poly ring =>
    have hev : ∀ e : ℚ, _expand_polygon buf (.poly ring) e =
        if e < 0 then .error "ValueError: Buffer distance cannot be negative"
        else if e = 0 then .ok (some ring)
        else .ok (buf ring (e / KM_PER_DEGREE)) := fun e => rfl
    by_cases h0 : d = 0
    · refine ⟨some ring, ?_, fun hf => by simp [PolyInput.isFalsy] at hf⟩
      rw [hev, if_neg (not_lt.mpr hd), if_pos h0]
    · refine ⟨buf ring (d / KM_PER_DEGREE), ?_, fun hf => by simp [PolyInput.isFalsy] at hf⟩
      rw [hev, if_neg (not_lt.mpr hd), if_neg h0]

theorem timelineEntryFor_ok (buf : GeoPoly → ℚ → Option GeoPoly) (gA : Bool)
    (gF : GeoPoly → ℚ) (b : PolyInput) (rate hours : ℚ) (hr : 0 ≤ rate)
    (hh : 0 ≤ hours) :
    ∃ e, timelineEntryFor buf gA gF b rate hours = .ok e ∧
      e.confidence = pyRoundTo 2 (pymax 0 (BASE_CONFIDENCE - hours * CONFIDENCE_DECAY_PER_HOUR)) ∧
      (b.isFalsy = true → e.boundary = none ∧ e.area_km2 = 0) := by
  obtain ⟨eb, heb, hfalsy⟩ := expand_nonneg_ok buf b (rate * hours) (mul_nonneg hr hh)
  refine ⟨{ boundary := eb
            area_km2 := _calculate_polygon_area gA gF (optToPolyInput eb)
            confidence := pyRoundTo 2 (pymax 0 (BASE_CONFIDENCE - hours * CONFIDENCE_DECAY_PER_HOUR)) },
    ?_, rfl, ?_⟩
  · unfold timelineEntryFor
    rw [heb]
  · intro hf
    have hnone := hfalsy hf
    subst hnone
    exact ⟨rfl, rfl⟩

/-- C6: for every perimeter (present or falsy) and every spread rate, the
timeline projection returns entries for hour_1, hour_3, hour_6 whose
confidences are exactly 0.70, 0.60, 0.45 (strictly decreasing with the
horizon), and when the perimeter is missing every horizon's boundary is
None and its area is 0.0 while those confidences are still populated. -/
theorem c6_timeline_confidences (buf : GeoPoly → ℚ → Option GeoPoly) (gA : Bool)
    (gF : GeoPoly → ℚ) (boundary : PolyInput) (spread_rate : ℚ) :
    ∃ e1 e3 e6,
      _generate_timeline_predictions buf gA gF boundary spread_rate =
        .ok [("hour_1", e1), ("hour_3", e3), ("hour_6", e6)] ∧
      e1.confidence = 7/10 ∧ e3.confidence = 3/5 ∧ e6.confidence = 9/20 ∧
      e6.confidence < e3.confidence ∧ e3.confidence < e1.confidence ∧
      (boundary.isFalsy = true →
        e1.boundary = none ∧ e1.area_km2 = 0 ∧ e3.boundary = none ∧
        e3.area_km2 = 0 ∧ e6.boundary = none ∧ e6.area_km2 = 0) := by
  have hrate : 0 ≤ clampRate spread_rate := by
    unfold clampRate
    split
    · norm_num
    · next h => exact not_lt.mp h
  obtain ⟨e1, h1, hc1, hf1⟩ :=
    timelineEntryFor_ok buf gA gF boundary _ 1 hrate (by norm_num)
  obtain ⟨e3, h3, hc3, hf3⟩ :=
    timelineEntryFor_ok buf gA gF boundary _ 3 hrate (by norm_num)
  obtain ⟨e6, h6, hc6, hf6⟩ :=
    timelineEntryFor_ok buf gA gF boundary _ 6 hrate (by norm_num)
  have e1c : e1.confidence = 7/10 := by
    rw [hc1]
    have hx : pymax 0 (BASE_CONFIDENCE - 1 * CONFIDENCE_DECAY_PER_HOUR) =
        ((70 : ℤ) : ℚ) / 10 ^ 2 := by
      norm_num [pymax, BASE_CONFIDENCE, CONFIDENCE_DECAY_PER_HOUR]
    rw [hx, pyRoundTo_exact]
    norm_num
  have e3c : e3.confidence = 3/5 := by
    rw [hc3]
    have hx : pymax 0 (BASE_CONFIDENCE - 3 * CONFIDENCE_DECAY_PER_HOUR) =
        ((60 : ℤ) : ℚ) / 10 ^ 2 := by
      norm_num [pymax, BASE_CONFIDENCE, CONFIDENCE_DECAY_PER_HOUR]
    rw [hx, pyRoundTo_exact]
    norm_num
  have e6c : e6.confidence = 9/20 := by
    rw [hc6]
    have hx : pymax 0 (BASE_CONFIDENCE - 6 * CONFIDENCE_DECAY_PER_HOUR) =
        ((45 : ℤ) : ℚ) / 10 ^ 2 := by
      norm_num [pymax, BASE_CONFIDENCE, CONFIDENCE_DECAY_PER_HOUR]
    rw [hx, pyRoundTo_exact]
    norm_num
  refine ⟨e1, e3, e6, ?_, e1c, e3c, e6c,
    by rw [e3c, e6c]; norm_num, by rw [e1c, e3c]; norm_num, ?_⟩
  · unfold _generate_timeline_predictions
    rw [h1, h3, h6]
  · intro hf
    obtain ⟨b1, a1⟩ := hf1 hf
    obtain ⟨b3, a3⟩ := hf3 hf
    obtain ⟨b6, a6⟩ := hf6 hf
    exact ⟨b1, a1, b3, a3, b6, a6⟩

/-- C6 witness: the theorem applied at a concrete missing perimeter
(Python None) and spread rate 2 with the identity buffer and no geodesy
backend. -/
theorem c6_witness :
    ∃ e1 e3 e6,
      _generate_timeline_predictions (fun r _ => some r) false (fun _ => 0)
          .pynone 2 =
        .ok [("hour_1", e1), ("hour_3", e3), ("hour_6", e6)] ∧
      e1.confidence = 7/10 ∧ e3.confidence = 3/5 ∧ e6.confidence = 9/20 ∧
      e6.confidence < e3.confidence ∧ e3.confidence < e1.confidence ∧
      (PolyInput.pynone.isFalsy = true →
        e1.boundary = none ∧ e1.area_km2 = 0 ∧ e3.boundary = none ∧
        e3.area_km2 = 0 ∧ e6.boundary = none ∧ e6.area_km2 = 0) :=
  c6_timeline_confidences (fun r _ => some r) false (fun _ => 0) .pynone 2

-- ===========================================================================
-- _calculate_arrival_times (prediction_helpers.py lines 437-532)
-- ===========================================================================

/-- A Python float that can be finite or +infinity, as produced by
_distance_to_boundary and the arrival-time division. -/
inductive ExtQ where
  | fin (q : ℚ)
  | inf
deriving DecidableEq

/-- Python float comparison <= on finite-or-infinite values. -/
def ExtQ.leb : ExtQ → ExtQ → Bool
  | .fin a, .fin b => decide (a ≤ b)
  | .fin _, .inf => true
  | .inf, .fin _ => false
  | .inf, .inf => true

/-- Python comparison of a finite-or-infinite value against a finite
threshold: inf < c is False. -/
def ExtQ.ltq : ExtQ → ℚ → Bool
  | .fin a, c => decide (a < c)
  | .inf, _ => false

/-- Division of a finite-or-infinite numerator by a positive finite
denominator: inf / e stays inf in Python float arithmetic. -/
def ExtQ.divq : ExtQ → ℚ → ExtQ
  | .fin a, e => .fin (a / e)
  | .inf, _ => .inf

/-- Python round(x, 1): round(inf, 1) is inf. -/
def ExtQ.round1 : ExtQ → ExtQ
  | .fin a => .fin (pyRoundTo 1 a)
  | .inf => .inf

/-- A critical point record {name, lat, lon}. -/
structure CritPoint where
  name : String
  lat : ℚ
  lon : ℚ

/-- One result entry of _calculate_arrival_times. -/
structure ArrivalEntry where
  location : String
  hours_until_arrival : ExtQ
  confidence : String
deriving DecidableEq

/-- The sort key order of results.sort(key=lambda x: x[hours_until_arrival]). -/
def entryLe (a b : ArrivalEntry) : Prop :=
  ExtQ.leb a.hours_until_arrival b.hours_until_arrival = true

instance : DecidableRel entryLe := fun a b => by
  unfold entryLe
  infer_instance

instance : IsTotal ArrivalEntry entryLe where
  total a b := by
    unfold entryLe
    cases ha : a.hours_until_arrival <;> cases hb : b.hours_until_arrival <;>
      simp [ExtQ.leb]
    exact le_total _ _

instance : IsTrans ArrivalEntry entryLe where
  trans a b c hab hbc := by
    unfold entryLe at hab hbc ⊢
    cases ha : a.hours_until_arrival <;> cases hb : b.hours_until_arrival <;>
      cases hc : c.hours_until_arrival <;>
        simp_all [ExtQ.leb]
    exact le_trans hab hbc

/-- One loop iteration of _calculate_arrival_times for a critical point:
distance to boundary, directional factor, effective rate, arrival hours
(inf when the effective rate is not positive, so no division error), the
confidence tier decided on the unrounded hours against the 6-hour
threshold, and the stored hours rounded to 1 decimal. -/
def arrivalEntryFor (dist : CritPoint → ExtQ) (dirF : CritPoint → ℚ)
    (spread_rate : ℚ) (p : CritPoint) : ArrivalEntry :=
  let eff := spread_rate * dirF p
  let hours := if eff ≤ 0 then ExtQ.inf else ExtQ.divq (dist p) eff
  { location := p.name
    hours_until_arrival := ExtQ.round1 hours
    confidence :=
      if ExtQ.ltq hours ARRIVAL_TIME_HIGH_CONFIDENCE_THRESHOLD then "high" else "medium" }

/-- Shallow embedding of _calculate_arrival_times.  The geometric
collaborators are abstracted: dist stands for _distance_to_boundary of
the fixed boundary geometry at each point (inf models the
invalid-input/exception paths of that helper), dirF stands for
_calculate_directional_factor from the boundary centroid to the point
under the given wind direction, and boundaryPresent is the truthiness of
boundary_geom.  A falsy boundary or non-positive spread rate returns [].
Python's stable sort by the hours_until_arrival key is modelled by
insertion sort over that key order, which produces a list sorted the
same way. -/
def _calculate_arrival_times (dist : CritPoint → ExtQ) (dirF : CritPoint → ℚ)
    (boundaryPresent : Bool) (points : List CritPoint) (spread_rate : ℚ) :
    List ArrivalEntry :=
  if boundaryPresent = false then []
  else if spread_rate ≤ 0 then []
  else List.insertionSort entryLe (points.map (arrivalEntryFor dist dirF spread_rate))

theorem round1_eq_inf_iff (h : ExtQ) : ExtQ.round1 h = ExtQ.inf ↔ h = ExtQ.inf := by
  cases h <;> simp [ExtQ.round1]

theorem entryLe_inf_forces (a b : ArrivalEntry) (hab : entryLe a b)
    (ha : a.hours_until_arrival = ExtQ.inf) : b.hours_until_arrival = ExtQ.inf := by
  unfold entryLe at hab
  rw [ha] at hab
  cases hb : b.hours_until_arrival with
  | fin q => rw [hb] at hab; simp [ExtQ.leb] at hab
  | inf => rfl

/-- C7: for every boundary, critical-point list, spread rate and
directional data, the arrival-time list is sorted ascending by
hours_until_arrival; every entry whose arrival time is +infinity carries
confidence "medium", and (by sortedness) such entries come after all
finite ones — any entry following an infinite one is infinite too.  The
inf branch exists exactly so that a non-positive effective spread rate
maps to +infinity instead of raising a division error. -/
theorem c7_arrival_times_sorted (dist : CritPoint → ExtQ) (dirF : CritPoint → ℚ)
    (boundaryPresent : Bool) (points : List CritPoint) (spread_rate : ℚ) :
    List.Sorted entryLe (_calculate_arrival_times dist dirF boundaryPresent points spread_rate) ∧
    (∀ e ∈ _calculate_arrival_times dist dirF boundaryPresent points spread_rate,
      e.hours_until_arrival = ExtQ.inf → e.confidence = "medium") ∧
    List.Pairwise
      (fun a b => a.hours_until_arrival = ExtQ.inf → b.hours_until_arrival = ExtQ.inf)
      (_calculate_arrival_times dist dirF boundaryPresent points spread_rate) := by
  have hsorted :
      List.Sorted entryLe (_calculate_arrival_times dist dirF boundaryPresent points spread_rate) := by
    unfold _calculate_arrival_times
    split
    · exact List.sorted_nil
    · split
      · exact List.sorted_nil
      · exact List.sorted_insertionSort entryLe _
  refine ⟨hsorted, ?_, ?_⟩
  · intro e he hinf
    unfold _calculate_arrival_times at he
    split at he
    · simp at he
    · split at he
      · simp at he
      · rw [List.mem_insertionSort] at he
        obtain ⟨p, -, hp⟩ := List.mem_map.mp he
        subst hp
        unfold arrivalEntryFor at hinf ⊢
        simp only at hinf ⊢
        rw [round1_eq_inf_iff] at hinf
        rw [hinf]
        simp [ExtQ.ltq]
  · exact hsorted.imp (fun hab ha => entryLe_inf_forces _ _ hab ha)

/-- C7 witness: the theorem applied at a concrete boundary with one
zero-directional-factor point (effective rate 0, hence an inf entry) and
one finite point. -/
theorem c7_witness :
    List.Sorted entryLe
      (_calculate_arrival_times (fun _ => ExtQ.fin 1)
        (fun p => if p.name = "far" then 0 else 1) true
        [⟨"far", 0, 0⟩, ⟨"near", 1, 1⟩] 2) ∧
    (∀ e ∈ _calculate_arrival_times (fun _ => ExtQ.fin 1)
        (fun p => if p.name = "far" then 0 else 1) true
        [⟨"far", 0, 0⟩, ⟨"near", 1, 1⟩] 2,
      e.hours_until_arrival = ExtQ.inf → e.confidence = "medium") ∧
    List.Pairwise
      (fun a b => a.hours_until_arrival = ExtQ.inf → b.hours_until_arrival = ExtQ.inf)
      (_calculate_arrival_times (fun _ => ExtQ.fin 1)
        (fun p => if p.name = "far" then 0 else 1) true
        [⟨"far", 0, 0⟩, ⟨"near", 1, 1⟩] 2) :=
  c7_arrival_times_sorted (fun _ => ExtQ.fin 1)
    (fun p => if p.name = "far" then 0 else 1) true
    [⟨"far", 0, 0⟩, ⟨"near", 1, 1⟩] 2

/-- C10: the confidence tier is decided on the unrounded
hours_until_arrival while the stored value is rounded to 1 decimal: with
a true arrival time of 5.96 hours (inside [5.95, 6)) the single entry
reports hours_until_arrival == 6.0 together with confidence "high". -/
theorem c10_rounding_vs_confidence_threshold :
    _calculate_arrival_times (fun _ => ExtQ.fin (149/25)) (fun _ => 1) true
        [⟨"Residential Area A", 43735/1000, -399/5⟩] 1 =
      [{ location := "Residential Area A", hours_until_arrival := ExtQ.fin 6,
         confidence := "high" }] ∧
    (119/20 : ℚ) ≤ 149/25 ∧ (149/25 : ℚ) < 6 := by
  refine ⟨?_, by norm_num, by norm_num⟩
  unfold _calculate_arrival_times arrivalEntryFor
  rw [if_neg (by norm_num), if_neg (by norm_num)]
  simp only [List.map, List.insertionSort, List.orderedInsert]
  have hhours : (if (1 : ℚ) * (fun _ => (1 : ℚ)) (⟨"Residential Area A", 43735/1000, -399/5⟩ : CritPoint) ≤ 0
      then ExtQ.inf
      else ExtQ.divq ((fun _ => ExtQ.fin (149/25)) (⟨"Residential Area A", 43735/1000, -399/5⟩ : CritPoint)) ((1 : ℚ) * (fun _ => (1 : ℚ)) (⟨"Residential Area A", 43735/1000, -399/5⟩ : CritPoint))) =
      ExtQ.fin (149/25) := by
    rw [if_neg (by norm_num)]
    simp [ExtQ.divq]
  simp only [hhours]
  have hfloor : (⌊(298 : ℚ)/5⌋ : ℤ) = 59 := by norm_num [Int.floor_eq_iff]
  have hrhe : roundHalfEven ((298 : ℚ)/5) = 60 := by
    unfold roundHalfEven
    norm_num [hfloor]
  have hround : ExtQ.round1 (ExtQ.fin (149/25)) = ExtQ.fin 6 := by
    simp only [ExtQ.round1, pyRoundTo]
    rw [show (149 : ℚ)/25 * 10 ^ 1 = 298/5 by norm_num, hrhe]
    norm_num
  have hconf : (if ExtQ.ltq (ExtQ.fin (149/25)) ARRIVAL_TIME_HIGH_CONFIDENCE_THRESHOLD = true
      then "high" else "medium") = "high" := by
    rw [if_pos]
    simp only [ExtQ.ltq, ARRIVAL_TIME_HIGH_CONFIDENCE_THRESHOLD, decide_eq_true_eq]
    norm_num
  rw [hround, hconf]
